import Mathlib

set_option linter.unusedVariables false

/-!
Shallow embedding of the vector-wrapper layer of `boltzmann/wrapper.py`:
the `DuneStuffVector` class, the `DuneStuffListVectorSpace` factory, and the
parameter caching of `Solver.set_rhs_operator_params`.

Scalars: the buffers hold IEEE doubles; none of the properties below concern
rounding, so doubles are modelled exactly as rationals.

Object identity and mutation: native `CommonDenseVector` objects and numpy
arrays own flat double storage; both are modelled as addresses into an
explicit heap of buffers, so that in-place mutation, aliasing, freshness of
allocations and object identity are all expressible.  The class
`libboltzmann.CommonDenseVector` itself is a native object external to the
repository; its primitive operations are modelled from the spec (the
Numeric Buffer contract) and are marked as such below.
-/

/-- A double-precision scalar, modelled exactly. -/
abbrev Double := Rat

/-- The flat storage of one native vector or one numpy array. -/
abbrev Buffer := List Double

/-- Heap address of a storage object; allocation order gives identity. -/
abbrev Addr := Nat

/-- The heap of live storage objects, addressed by allocation index. -/
structure Heap where
  bufs : List Buffer
deriving DecidableEq

def Heap.get (h : Heap) (a : Addr) : Buffer := h.bufs.getD a []

def Heap.set (h : Heap) (a : Addr) (b : Buffer) : Heap := ⟨h.bufs.set a b⟩

/-- Allocate a fresh storage object; its address is the previous heap size. -/
def Heap.alloc (h : Heap) (b : Buffer) : Heap × Addr := (⟨h.bufs ++ [b]⟩, h.bufs.length)

/-- A numpy double array, identified by the address of the storage it reads
and writes.  `np.frombuffer(impl.buffer())` yields the array addressing the
native buffer itself (a view); an array owning its storage has its own
address. -/
structure NpArray where
  addr : Addr
deriving DecidableEq

def NpArray.read (h : Heap) (arr : NpArray) : Buffer := h.get arr.addr

/-- numpy slice assignment `arr[:] = src`: writes the values of `src` into the
storage `arr` addresses, element for element.  Defined only for matching
lengths (numpy raises on a length mismatch, which nothing below exercises). -/
def NpArray.sliceWrite (h : Heap) (arr : NpArray) (src : Buffer) : Heap :=
  if src.length = (h.get arr.addr).length then h.set arr.addr src else h

/-- Modelled from the spec: `libboltzmann.CommonDenseVector(length, value)` is
a native constructor external to the repository; per the Numeric Buffer
contract it allocates a fresh buffer of the given length, every entry set to
`value`. -/
def CommonDenseVector.new (h : Heap) (len : Nat) (value : Double) : Heap × Addr :=
  h.alloc (List.replicate len value)

/-- Modelled from the spec: native `impl.dim()` is the buffer length. -/
def implDim (h : Heap) (a : Addr) : Nat := (h.get a).length

/-- Modelled from the spec: native `impl.copy()` — new buffer, independent
storage, identical values. -/
def implCopy (h : Heap) (a : Addr) : Heap × Addr := h.alloc (h.get a)

/-- Modelled from the spec: native in-place `impl.scal(alpha)`. -/
def implScal (h : Heap) (a : Addr) (alpha : Double) : Heap :=
  h.set a ((h.get a).map (fun x => alpha * x))

/-- Modelled from the spec: native in-place `impl.axpy(alpha, x)`. -/
def implAxpy (h : Heap) (a : Addr) (alpha : Double) (x : Addr) : Heap :=
  h.set a (List.zipWith (fun s t => s + alpha * t) (h.get a) (h.get x))

/-- Modelled from the spec: native `self.impl + other.impl` allocates a fresh
sum vector. -/
def implAdd (h : Heap) (a b : Addr) : Heap × Addr :=
  h.alloc (List.zipWith (fun s t => s + t) (h.get a) (h.get b))

/-- Modelled from the spec: native `self.impl - other.impl` allocates a fresh
difference vector. -/
def implSub (h : Heap) (a b : Addr) : Heap × Addr :=
  h.alloc (List.zipWith (fun s t => s - t) (h.get a) (h.get b))

/-- Modelled from the spec: native in-place `self.impl += other.impl`. -/
def implIadd (h : Heap) (a b : Addr) : Heap :=
  h.set a (List.zipWith (fun s t => s + t) (h.get a) (h.get b))

/-- Modelled from the spec: native in-place `self.impl -= other.impl`. -/
def implIsub (h : Heap) (a b : Addr) : Heap :=
  h.set a (List.zipWith (fun s t => s - t) (h.get a) (h.get b))

/-- Modelled from the spec: native `self.impl * alpha` allocates a fresh
scaled vector. -/
def implMul (h : Heap) (a : Addr) (alpha : Double) : Heap × Addr :=
  h.alloc ((h.get a).map (fun x => x * alpha))

/-- Modelled from the spec: native `-self.impl` allocates a fresh negated
vector. -/
def implNeg (h : Heap) (a : Addr) : Heap × Addr :=
  h.alloc ((h.get a).map (fun x => -x))

/-- Modelled from the spec: native indexed read `impl[i]`. -/
def implAt (h : Heap) (a : Addr) (i : Nat) : Double := (h.get a).getD i 0

/-- `class DuneStuffVector(VectorInterface)`: a thin wrapper holding the
native object in its `impl` attribute. -/
structure DuneStuffVector where
  impl : Addr
deriving DecidableEq

/-- `dim` property: `self.impl.dim()`. -/
def DuneStuffVector.dim (h : Heap) (v : DuneStuffVector) : Nat := implDim h v.impl

/-- `data` property: `np.frombuffer(self.impl.buffer(), dtype=np.double)` —
a numpy view aliasing the native buffer, hence carrying the impl's own
address. -/
def DuneStuffVector.data (v : DuneStuffVector) : NpArray := ⟨v.impl⟩

/-- `copy(deep=False)`: `DuneStuffVector(self.impl.copy())`, ignoring `deep`. -/
def DuneStuffVector.copy (h : Heap) (v : DuneStuffVector) (deep : Bool) :
    Heap × DuneStuffVector :=
  let p := implCopy h v.impl
  (p.1, ⟨p.2⟩)

/-- `scal(alpha)`: `self.impl.scal(alpha)` mutates the buffer in place; the
method body has no `return`, so the call itself evaluates to `None`,
modelled as `none`. -/
def DuneStuffVector.scal (h : Heap) (v : DuneStuffVector) (alpha : Double) :
    Heap × Option DuneStuffVector :=
  (implScal h v.impl alpha, none)

/-- `axpy(alpha, x)`: `self.impl.axpy(alpha, x.impl)` mutates in place; the
method body has no `return`, so the call evaluates to `None`. -/
def DuneStuffVector.axpy (h : Heap) (v : DuneStuffVector) (alpha : Double)
    (x : DuneStuffVector) : Heap × Option DuneStuffVector :=
  (implAxpy h v.impl alpha x.impl, none)

/-- `__add__`: `DuneStuffVector(self.impl + other.impl)`. -/
def DuneStuffVector.add (h : Heap) (v w : DuneStuffVector) : Heap × DuneStuffVector :=
  let p := implAdd h v.impl w.impl
  (p.1, ⟨p.2⟩)

/-- `__iadd__`: `self.impl += other.impl; return self`. -/
def DuneStuffVector.iadd (h : Heap) (v w : DuneStuffVector) : Heap × DuneStuffVector :=
  (implIadd h v.impl w.impl, v)

/-- `__sub__`: `DuneStuffVector(self.impl - other.impl)`. -/
def DuneStuffVector.sub (h : Heap) (v w : DuneStuffVector) : Heap × DuneStuffVector :=
  let p := implSub h v.impl w.impl
  (p.1, ⟨p.2⟩)

/-- `__isub__`: `self.impl -= other.impl; return self`. -/
def DuneStuffVector.isub (h : Heap) (v w : DuneStuffVector) : Heap × DuneStuffVector :=
  (implIsub h v.impl w.impl, v)

/-- `__mul__`: `DuneStuffVector(self.impl * other)`. -/
def DuneStuffVector.mul (h : Heap) (v : DuneStuffVector) (alpha : Double) :
    Heap × DuneStuffVector :=
  let p := implMul h v.impl alpha
  (p.1, ⟨p.2⟩)

/-- `__neg__`: `DuneStuffVector(-self.impl)`. -/
def DuneStuffVector.neg (h : Heap) (v : DuneStuffVector) : Heap × DuneStuffVector :=
  let p := implNeg h v.impl
  (p.1, ⟨p.2⟩)

/-- `l2_norm()`: delegates to the native `self.impl.l2_norm()`; the native
norm lives outside the repository, so it is an arbitrary function of the
heap and the address. -/
def DuneStuffVector.l2_norm (nativeL2 : Heap → Addr → Double) (h : Heap)
    (v : DuneStuffVector) : Double :=
  nativeL2 h v.impl

/-- `l2_norm2()`: the source delegates to the very same native
`self.impl.l2_norm()` call (not a squared norm). -/
def DuneStuffVector.l2_norm2 (nativeL2 : Heap → Addr → Double) (h : Heap)
    (v : DuneStuffVector) : Double :=
  nativeL2 h v.impl

/-- The abstract failure of indexed access outside `[0, dim)`; realized in
the source by a failing `assert`. -/
inductive DofsError
  | indexOutOfRange
deriving DecidableEq

/-- `np.min` on a nonempty index list. -/
def npMin : List Int → Int
  | [] => 0
  | x :: xs => xs.foldl min x

/-- `np.max` on a nonempty index list. -/
def npMax : List Int → Int
  | [] => 0
  | x :: xs => xs.foldl max x

/-- `dofs(dof_indices)`: an empty index list returns an empty array at once;
otherwise the two asserts demand `0 <= np.min(dof_indices)` and
`np.max(dof_indices) < self.dim` before any value is gathered, and a failing
assert aborts the call with no result (the failure the spec names
`IndexOutOfRange`). -/
def DuneStuffVector.dofs (h : Heap) (v : DuneStuffVector) (dof_indices : List Int) :
    Except DofsError (List Double) :=
  if dof_indices.length = 0 then Except.ok []
  else if 0 ≤ npMin dof_indices ∧ npMax dof_indices < (DuneStuffVector.dim h v : Int) then
    Except.ok (dof_indices.map (fun i => implAt h v.impl i.toNat))
  else Except.error DofsError.indexOutOfRange

/-- `__getstate__` returns `(type(self.impl), self.data)`; the kind tag is
constantly the `CommonDenseVector` class, so the persisted snapshot is the
flat value sequence the `data` view exposes at that moment. -/
def DuneStuffVector.getstate (h : Heap) (v : DuneStuffVector) : Buffer :=
  NpArray.read h (DuneStuffVector.data v)

/-- `__setstate__(state)`: `self.impl = state[0](len(state[1]), 0.)` allocates
a fresh zero buffer of the snapshot's length, then `self.data[:] = state[1]`
copies the snapshot values in. -/
def DuneStuffVector.setstate (h : Heap) (state : Buffer) : Heap × DuneStuffVector :=
  let p := CommonDenseVector.new h state.length 0
  (NpArray.sliceWrite p.1 (DuneStuffVector.data ⟨p.2⟩) state, (⟨p.2⟩ : DuneStuffVector))

/-- `class DuneStuffListVectorSpace(ListVectorSpace)`: identified by `dim`
and the optional `id_` tag given at construction. -/
structure DuneStuffListVectorSpace where
  dim : Nat
  id : Option String
deriving DecidableEq

/-- `__eq__`: `type(other) is DuneStuffListVectorSpace and self.dim ==
other.dim and self.id == other.id`; between two instances of the class the
type test holds, leaving the two field comparisons. -/
def DuneStuffListVectorSpace.eq (S T : DuneStuffListVectorSpace) : Bool :=
  S.dim == T.dim && S.id == T.id

/-- `zero_vector()`: `DuneStuffVector(CommonDenseVector(self.dim, 0))`. -/
def DuneStuffListVectorSpace.zero_vector (h : Heap) (S : DuneStuffListVectorSpace) :
    Heap × DuneStuffVector :=
  let p := CommonDenseVector.new h S.dim 0
  (p.1, (⟨p.2⟩ : DuneStuffVector))

/-- `make_vector(obj)`: `DuneStuffVector(obj)` — the supplied native object is
wrapped as it stands; no check relates its dimension to the space's. -/
def DuneStuffListVectorSpace.make_vector (S : DuneStuffListVectorSpace) (obj : Addr) :
    DuneStuffVector :=
  ⟨obj⟩

/-- `vector_from_numpy(data, ensure_copy=False)`: `v = self.zero_vector()`,
then `v.data[:] = data.copy() if ensure_copy else data`.  For either value of
`ensure_copy` the slice assignment writes the current values of `data` into
the fresh zero buffer element for element (`data.copy()` is a temporary with
the same values whose storage is never referenced again). -/
def DuneStuffListVectorSpace.vector_from_numpy (h : Heap) (S : DuneStuffListVectorSpace)
    (data : NpArray) (ensure_copy : Bool) : Heap × DuneStuffVector :=
  let p := DuneStuffListVectorSpace.zero_vector h S
  (NpArray.sliceWrite p.1 (DuneStuffVector.data p.2) (NpArray.read p.1 data), p.2)

/-- The four keyword arguments of `set_rhs_operator_params`, packed into the
tuple `mu`. -/
abbrev Mu := Rat × Rat × Rat × Rat

/-- The solver state that `set_rhs_operator_params` touches: the cached
`last_mu` and the log of invocations of the native
`impl.set_rhs_operator_parameters`. -/
structure SolverState where
  last_mu : Option Mu
  calls : List Mu
deriving DecidableEq

/-- `Solver.__init__` sets `self.last_mu = None`; no native parameter call
has happened yet. -/
def Solver.init : SolverState := ⟨none, []⟩

/-- `set_rhs_operator_params(...)`: pack the four arguments into `mu`; when
`mu != self.last_mu`, record `mu` and invoke the native
`set_rhs_operator_parameters(*mu)` (appended to the log), else do nothing.
The returned flag reports whether the native call happened. -/
def Solver.set_rhs_operator_params (s : SolverState) (mu : Mu) : SolverState × Bool :=
  if some mu ≠ s.last_mu then ((⟨some mu, s.calls ++ [mu]⟩ : SolverState), true)
  else (s, false)

/-- The solver state after a sequence of `set_rhs_operator_params` calls
starting from a freshly constructed solver. -/
def Solver.runParams (ms : List Mu) : SolverState :=
  ms.foldl (fun s mu => (Solver.set_rhs_operator_params s mu).1) Solver.init

/-! ## Heap lemmas -/

theorem Heap.get_alloc_old (h : Heap) (b : Buffer) (a : Addr) (ha : a < h.bufs.length) :
    Heap.get (Heap.alloc h b).1 a = Heap.get h a := by
  simp [Heap.get, Heap.alloc, List.getD, List.getElem?_append, ha]

theorem Heap.get_alloc_fresh (h : Heap) (b : Buffer) :
    Heap.get (Heap.alloc h b).1 (Heap.alloc h b).2 = b := by
  simp [Heap.get, Heap.alloc, List.getD]

theorem Heap.get_set_same (h : Heap) (a : Addr) (b : Buffer) (ha : a < h.bufs.length) :
    Heap.get (Heap.set h a b) a = b := by
  simp [Heap.get, Heap.set, List.getD, List.getElem?_set_eq_of_lt _ ha]

theorem Heap.get_set_other (h : Heap) (a x : Addr) (b : Buffer) (hx : x ≠ a) :
    Heap.get (Heap.set h a b) x = Heap.get h x := by
  simp [Heap.get, Heap.set, List.getD, List.getElem?_set_ne (fun hax => hx hax.symm)]

theorem Heap.alloc_snd (h : Heap) (b : Buffer) : (Heap.alloc h b).2 = h.bufs.length := rfl

theorem Heap.length_alloc (h : Heap) (b : Buffer) :
    (Heap.alloc h b).1.bufs.length = h.bufs.length + 1 := by
  simp [Heap.alloc]

theorem Heap.length_set (h : Heap) (a : Addr) (b : Buffer) :
    (Heap.set h a b).bufs.length = h.bufs.length := by
  simp [Heap.set]

/-! ## Theorems about the embedded program -/

/-- C5: `l2_norm2` performs the very same native `impl.l2_norm()` call as
`l2_norm`, so the two methods are extensionally equal, whatever value the
native norm computes: `l2_norm2` does not return the squared norm. -/
theorem l2_norm2_eq_l2_norm (nativeL2 : Heap → Addr → Double) (h : Heap)
    (v : DuneStuffVector) :
    DuneStuffVector.l2_norm2 nativeL2 h v = DuneStuffVector.l2_norm nativeL2 h v := rfl

/-- C8: two `DuneStuffListVectorSpace` instances compare equal exactly when
both the dimension and the namespace id agree; differing in either field
makes them unequal. -/
theorem space_eq_iff (S T : DuneStuffListVectorSpace) :
    DuneStuffListVectorSpace.eq S T = true ↔ (S.dim = T.dim ∧ S.id = T.id) := by
  simp [DuneStuffListVectorSpace.eq]

/-- C9: `dofs([])` returns the empty result for every vector over every heap
— also for a vector of dimension zero — and, being independent of the heap,
neither reads nor writes the buffer. -/
theorem dofs_empty (h : Heap) (v : DuneStuffVector) :
    DuneStuffVector.dofs h v [] = Except.ok [] := rfl

theorem get_sliceWrite_other (h : Heap) (arr : NpArray) (src : Buffer) (x : Addr)
    (hx : x ≠ arr.addr) : Heap.get (NpArray.sliceWrite h arr src) x = Heap.get h x := by
  unfold NpArray.sliceWrite
  split
  · exact Heap.get_set_other h arr.addr x src hx
  · rfl

theorem zero_vector_impl (h : Heap) (S : DuneStuffListVectorSpace) :
    (DuneStuffListVectorSpace.zero_vector h S).2.impl = h.bufs.length := rfl

theorem zero_vector_buffer (h : Heap) (S : DuneStuffListVectorSpace) :
    Heap.get (DuneStuffListVectorSpace.zero_vector h S).1
      (DuneStuffListVectorSpace.zero_vector h S).2.impl = List.replicate S.dim 0 :=
  Heap.get_alloc_fresh h (List.replicate S.dim 0)

/-- What `vector_from_numpy` does to the heap, for data of the space's
dimension: the produced wrapper owns the freshly allocated address, the fresh
buffer holds exactly the values `data` held at the call, and every
previously allocated storage object — the supplied array included — is
untouched. -/
theorem vector_from_numpy_spec (h : Heap) (S : DuneStuffListVectorSpace) (data : NpArray)
    (ec : Bool) (hdata : data.addr < h.bufs.length)
    (hlen : (NpArray.read h data).length = S.dim) :
    (DuneStuffListVectorSpace.vector_from_numpy h S data ec).2.impl = h.bufs.length
    ∧ Heap.get (DuneStuffListVectorSpace.vector_from_numpy h S data ec).1 h.bufs.length
        = NpArray.read h data
    ∧ ∀ a, a < h.bufs.length →
        Heap.get (DuneStuffListVectorSpace.vector_from_numpy h S data ec).1 a
          = Heap.get h a := by
  have hfreshbuf : Heap.get (DuneStuffListVectorSpace.zero_vector h S).1 h.bufs.length
      = List.replicate S.dim 0 := Heap.get_alloc_fresh h (List.replicate S.dim 0)
  have hsrc : NpArray.read (DuneStuffListVectorSpace.zero_vector h S).1 data
      = NpArray.read h data := Heap.get_alloc_old h (List.replicate S.dim 0) data.addr hdata
  have hcond : (NpArray.read (DuneStuffListVectorSpace.zero_vector h S).1 data).length
      = (Heap.get (DuneStuffListVectorSpace.zero_vector h S).1 h.bufs.length).length := by
    rw [hsrc, hfreshbuf, hlen, List.length_replicate]
  have hR : (DuneStuffListVectorSpace.vector_from_numpy h S data ec).1
      = Heap.set (DuneStuffListVectorSpace.zero_vector h S).1 h.bufs.length
          (NpArray.read (DuneStuffListVectorSpace.zero_vector h S).1 data) := by
    show NpArray.sliceWrite (DuneStuffListVectorSpace.zero_vector h S).1 ⟨h.bufs.length⟩
        (NpArray.read (DuneStuffListVectorSpace.zero_vector h S).1 data) = _
    unfold NpArray.sliceWrite
    exact if_pos hcond
  have hlt : h.bufs.length < (DuneStuffListVectorSpace.zero_vector h S).1.bufs.length := by
    show h.bufs.length < (Heap.alloc h (List.replicate S.dim 0)).1.bufs.length
    rw [Heap.length_alloc]
    exact Nat.lt_succ_self _
  refine ⟨rfl, ?_, ?_⟩
  · rw [hR, Heap.get_set_same _ _ _ hlt, hsrc]
  · intro a ha
    rw [hR, Heap.get_set_other _ _ _ _ (Nat.ne_of_lt ha)]
    exact Heap.get_alloc_old h (List.replicate S.dim 0) a ha

/-- C1 counterexample: a space of dimension 2 whose `make_vector` is handed a
native vector of dimension 3 yields a wrapper of dimension 3: `make_vector`
can produce a vector whose `dim` differs from the space's `dim`. -/
theorem make_vector_dim_mismatch :
    DuneStuffVector.dim (⟨[[0, 0, 0]]⟩ : Heap)
        (DuneStuffListVectorSpace.make_vector (⟨2, none⟩ : DuneStuffListVectorSpace) 0)
      ≠ (⟨2, none⟩ : DuneStuffListVectorSpace).dim := by decide

/-- C1 (amended): `zero_vector` always, and `vector_from_numpy` for data of
the space's dimension, produce vectors whose buffer length equals the
space's dimension; `make_vector` wraps the supplied native object unchecked,
so the produced vector's `dim` is the supplied object's own dimension,
whatever that is. -/
theorem space_construct_dims (h : Heap) (S : DuneStuffListVectorSpace)
    (data : NpArray) (ec : Bool) (obj : Addr)
    (hdata : data.addr < h.bufs.length)
    (hlen : (NpArray.read h data).length = S.dim) :
    DuneStuffVector.dim (DuneStuffListVectorSpace.zero_vector h S).1
        (DuneStuffListVectorSpace.zero_vector h S).2 = S.dim
    ∧ DuneStuffVector.dim (DuneStuffListVectorSpace.vector_from_numpy h S data ec).1
        (DuneStuffListVectorSpace.vector_from_numpy h S data ec).2 = S.dim
    ∧ DuneStuffVector.dim h (DuneStuffListVectorSpace.make_vector S obj) = implDim h obj := by
  obtain ⟨h1, h2, h3⟩ := vector_from_numpy_spec h S data ec hdata hlen
  refine ⟨?_, ?_, rfl⟩
  · show (Heap.get (DuneStuffListVectorSpace.zero_vector h S).1
        (DuneStuffListVectorSpace.zero_vector h S).2.impl).length = S.dim
    rw [zero_vector_buffer, List.length_replicate]
  · show (Heap.get (DuneStuffListVectorSpace.vector_from_numpy h S data ec).1
        (DuneStuffListVectorSpace.vector_from_numpy h S data ec).2.impl).length = S.dim
    rw [h1, h2, hlen]

/-- C1 witness: the amended statement at a one-dimensional space over a heap
holding the single numpy array `[7]`, with the space's own buffer wrapped
back by `make_vector`. -/
theorem space_construct_dims_witness :
    DuneStuffVector.dim
        (DuneStuffListVectorSpace.zero_vector (⟨[[7]]⟩ : Heap) ⟨1, none⟩).1
        (DuneStuffListVectorSpace.zero_vector (⟨[[7]]⟩ : Heap) ⟨1, none⟩).2 = 1
    ∧ DuneStuffVector.dim
        (DuneStuffListVectorSpace.vector_from_numpy (⟨[[7]]⟩ : Heap) ⟨1, none⟩ ⟨0⟩ false).1
        (DuneStuffListVectorSpace.vector_from_numpy (⟨[[7]]⟩ : Heap) ⟨1, none⟩ ⟨0⟩ false).2 = 1
    ∧ DuneStuffVector.dim (⟨[[7]]⟩ : Heap)
        (DuneStuffListVectorSpace.make_vector ⟨1, none⟩ 0) = implDim (⟨[[7]]⟩ : Heap) 0 :=
  space_construct_dims ⟨[[7]]⟩ ⟨1, none⟩ ⟨0⟩ false 0 (by decide) (by decide)

/-- C2 counterexample: over the heap holding one numpy array `[1]`, build a
vector from it with `ensure_copy=False`, then overwrite the array with `[5]`;
the vector still reads `[1]` and not `[5]` — a mutation of the supplied
array after construction is not visible through the constructed vector,
refuting the claimed assignment/aliasing. -/
theorem vector_from_numpy_no_aliasing :
    Heap.get
        (NpArray.sliceWrite
          (DuneStuffListVectorSpace.vector_from_numpy (⟨[[1]]⟩ : Heap) ⟨1, none⟩ ⟨0⟩ false).1
          ⟨0⟩ [5])
        (DuneStuffListVectorSpace.vector_from_numpy (⟨[[1]]⟩ : Heap) ⟨1, none⟩ ⟨0⟩ false).2.impl
      = [1]
    ∧ Heap.get
        (NpArray.sliceWrite
          (DuneStuffListVectorSpace.vector_from_numpy (⟨[[1]]⟩ : Heap) ⟨1, none⟩ ⟨0⟩ false).1
          ⟨0⟩ [5])
        (DuneStuffListVectorSpace.vector_from_numpy (⟨[[1]]⟩ : Heap) ⟨1, none⟩ ⟨0⟩ false).2.impl
      ≠ [5] := by
  refine ⟨by decide, by decide⟩

/-- C2 (amended): for data of the space's dimension, `vector_from_numpy`
zero-initializes a vector of that dimension over freshly allocated storage
distinct from the array's and overwrites its buffer with the values of
`data` by element-wise copy — the same for either value of `ensure_copy` —
so a subsequent write to the supplied array is not visible through the
constructed vector, which keeps the values `data` held at construction. -/
theorem vector_from_numpy_copies (h : Heap) (S : DuneStuffListVectorSpace)
    (data : NpArray) (ec : Bool) (src2 : Buffer)
    (hdata : data.addr < h.bufs.length)
    (hlen : (NpArray.read h data).length = S.dim) :
    Heap.get (DuneStuffListVectorSpace.vector_from_numpy h S data ec).1
        (DuneStuffListVectorSpace.vector_from_numpy h S data ec).2.impl
      = NpArray.read h data
    ∧ (DuneStuffListVectorSpace.vector_from_numpy h S data ec).2.impl ≠ data.addr
    ∧ Heap.get
        (NpArray.sliceWrite (DuneStuffListVectorSpace.vector_from_numpy h S data ec).1
          data src2)
        (DuneStuffListVectorSpace.vector_from_numpy h S data ec).2.impl
      = NpArray.read h data := by
  obtain ⟨h1, h2, h3⟩ := vector_from_numpy_spec h S data ec hdata hlen
  have hne : (DuneStuffListVectorSpace.vector_from_numpy h S data ec).2.impl ≠ data.addr := by
    rw [h1]
    exact Nat.ne_of_gt hdata
  refine ⟨?_, hne, ?_⟩
  · rw [h1, h2]
  · rw [get_sliceWrite_other _ _ _ _ hne, h1, h2]

/-- C2 witness: the amended statement for a one-dimensional space over the
heap holding the single numpy array `[1]`, with `[9]` written to the array
afterwards. -/
theorem vector_from_numpy_copies_witness :
    Heap.get (DuneStuffListVectorSpace.vector_from_numpy (⟨[[1]]⟩ : Heap) ⟨1, none⟩ ⟨0⟩ false).1
        (DuneStuffListVectorSpace.vector_from_numpy (⟨[[1]]⟩ : Heap) ⟨1, none⟩ ⟨0⟩ false).2.impl
      = NpArray.read (⟨[[1]]⟩ : Heap) ⟨0⟩
    ∧ (DuneStuffListVectorSpace.vector_from_numpy (⟨[[1]]⟩ : Heap) ⟨1, none⟩ ⟨0⟩ false).2.impl ≠ 0
    ∧ Heap.get
        (NpArray.sliceWrite
          (DuneStuffListVectorSpace.vector_from_numpy (⟨[[1]]⟩ : Heap) ⟨1, none⟩ ⟨0⟩ false).1
          ⟨0⟩ [9])
        (DuneStuffListVectorSpace.vector_from_numpy (⟨[[1]]⟩ : Heap) ⟨1, none⟩ ⟨0⟩ false).2.impl
      = NpArray.read (⟨[[1]]⟩ : Heap) ⟨0⟩ :=
  vector_from_numpy_copies ⟨[[1]]⟩ ⟨1, none⟩ ⟨0⟩ false [9] (by decide) (by decide)

/-- Property of a non-mutating operation result `p` on operands `v` and `w`
over heap `h`: the produced wrapper owns the freshly allocated address —
a new object with a new buffer — and both operands' buffers are unchanged. -/
def FreshUnchanged (h : Heap) (p : Heap × DuneStuffVector) (v w : DuneStuffVector) : Prop :=
  p.2.impl = h.bufs.length
  ∧ Heap.get p.1 v.impl = Heap.get h v.impl
  ∧ Heap.get p.1 w.impl = Heap.get h w.impl

/-- Property of a mutating operation: in the heap `h2` it leaves, `v`'s
buffer became `b` in place while `w`'s buffer kept its value from `h`. -/
def UpdatedAt (h h2 : Heap) (v w : DuneStuffVector) (b : Buffer) : Prop :=
  Heap.get h2 v.impl = b ∧ Heap.get h2 w.impl = Heap.get h w.impl

/-- C3 counterexample: `v.scal(alpha)` evaluates to `None` and not to the
receiver object, so the claim that every mutating operation returns the
receiver's identity already fails for `scal`. -/
theorem scal_returns_none :
    (DuneStuffVector.scal (⟨[[1, 2]]⟩ : Heap) ⟨0⟩ 3).2 ≠ some ⟨0⟩ := by decide

/-- C3 (amended): `scal` and `axpy` mutate the receiver's buffer in place and
return `None`; the in-place operators `+=` and `-=` mutate in place and
return the receiver's identity; the non-mutating operations `+`, `-`, scalar
`*`, unary negation and `copy` each allocate a new wrapper over a new buffer
and leave the operands' values unchanged. -/
theorem mutating_vs_fresh (h : Heap) (v w : DuneStuffVector) (alpha : Double)
    (hv : v.impl < h.bufs.length) (hw : w.impl < h.bufs.length)
    (hvw : v.impl ≠ w.impl) :
    ((DuneStuffVector.scal h v alpha).2 = none
      ∧ UpdatedAt h (DuneStuffVector.scal h v alpha).1 v w
          ((Heap.get h v.impl).map (fun x => alpha * x)))
    ∧ ((DuneStuffVector.axpy h v alpha w).2 = none
      ∧ UpdatedAt h (DuneStuffVector.axpy h v alpha w).1 v w
          (List.zipWith (fun s t => s + alpha * t) (Heap.get h v.impl) (Heap.get h w.impl)))
    ∧ ((DuneStuffVector.iadd h v w).2 = v
      ∧ UpdatedAt h (DuneStuffVector.iadd h v w).1 v w
          (List.zipWith (fun s t => s + t) (Heap.get h v.impl) (Heap.get h w.impl)))
    ∧ ((DuneStuffVector.isub h v w).2 = v
      ∧ UpdatedAt h (DuneStuffVector.isub h v w).1 v w
          (List.zipWith (fun s t => s - t) (Heap.get h v.impl) (Heap.get h w.impl)))
    ∧ FreshUnchanged h (DuneStuffVector.add h v w) v w
    ∧ FreshUnchanged h (DuneStuffVector.sub h v w) v w
    ∧ FreshUnchanged h (DuneStuffVector.mul h v alpha) v w
    ∧ FreshUnchanged h (DuneStuffVector.neg h v) v w
    ∧ FreshUnchanged h (DuneStuffVector.copy h v true) v w
    ∧ FreshUnchanged h (DuneStuffVector.copy h v false) v w := by
  have hwv : w.impl ≠ v.impl := Ne.symm hvw
  simp only [UpdatedAt, FreshUnchanged]
  exact ⟨⟨rfl, Heap.get_set_same h v.impl _ hv, Heap.get_set_other h v.impl w.impl _ hwv⟩,
    ⟨rfl, Heap.get_set_same h v.impl _ hv, Heap.get_set_other h v.impl w.impl _ hwv⟩,
    ⟨rfl, Heap.get_set_same h v.impl _ hv, Heap.get_set_other h v.impl w.impl _ hwv⟩,
    ⟨rfl, Heap.get_set_same h v.impl _ hv, Heap.get_set_other h v.impl w.impl _ hwv⟩,
    ⟨rfl, Heap.get_alloc_old h _ v.impl hv, Heap.get_alloc_old h _ w.impl hw⟩,
    ⟨rfl, Heap.get_alloc_old h _ v.impl hv, Heap.get_alloc_old h _ w.impl hw⟩,
    ⟨rfl, Heap.get_alloc_old h _ v.impl hv, Heap.get_alloc_old h _ w.impl hw⟩,
    ⟨rfl, Heap.get_alloc_old h _ v.impl hv, Heap.get_alloc_old h _ w.impl hw⟩,
    ⟨rfl, Heap.get_alloc_old h _ v.impl hv, Heap.get_alloc_old h _ w.impl hw⟩,
    ⟨rfl, Heap.get_alloc_old h _ v.impl hv, Heap.get_alloc_old h _ w.impl hw⟩⟩

/-- C3 witness: the amended statement over the two-object heap `[[1], [2]]`
with receiver the first vector, operand the second, and scalar 3. -/
theorem mutating_vs_fresh_witness :
    ((DuneStuffVector.scal (⟨[[1], [2]]⟩ : Heap) ⟨0⟩ 3).2 = none
      ∧ UpdatedAt (⟨[[1], [2]]⟩ : Heap) (DuneStuffVector.scal (⟨[[1], [2]]⟩ : Heap) ⟨0⟩ 3).1
          ⟨0⟩ ⟨1⟩ ((Heap.get (⟨[[1], [2]]⟩ : Heap) 0).map (fun x => 3 * x)))
    ∧ ((DuneStuffVector.axpy (⟨[[1], [2]]⟩ : Heap) ⟨0⟩ 3 ⟨1⟩).2 = none
      ∧ UpdatedAt (⟨[[1], [2]]⟩ : Heap) (DuneStuffVector.axpy (⟨[[1], [2]]⟩ : Heap) ⟨0⟩ 3 ⟨1⟩).1
          ⟨0⟩ ⟨1⟩ (List.zipWith (fun s t => s + 3 * t) (Heap.get (⟨[[1], [2]]⟩ : Heap) 0)
            (Heap.get (⟨[[1], [2]]⟩ : Heap) 1)))
    ∧ ((DuneStuffVector.iadd (⟨[[1], [2]]⟩ : Heap) ⟨0⟩ ⟨1⟩).2 = ⟨0⟩
      ∧ UpdatedAt (⟨[[1], [2]]⟩ : Heap) (DuneStuffVector.iadd (⟨[[1], [2]]⟩ : Heap) ⟨0⟩ ⟨1⟩).1
          ⟨0⟩ ⟨1⟩ (List.zipWith (fun s t => s + t) (Heap.get (⟨[[1], [2]]⟩ : Heap) 0)
            (Heap.get (⟨[[1], [2]]⟩ : Heap) 1)))
    ∧ ((DuneStuffVector.isub (⟨[[1], [2]]⟩ : Heap) ⟨0⟩ ⟨1⟩).2 = ⟨0⟩
      ∧ UpdatedAt (⟨[[1], [2]]⟩ : Heap) (DuneStuffVector.isub (⟨[[1], [2]]⟩ : Heap) ⟨0⟩ ⟨1⟩).1
          ⟨0⟩ ⟨1⟩ (List.zipWith (fun s t => s - t) (Heap.get (⟨[[1], [2]]⟩ : Heap) 0)
            (Heap.get (⟨[[1], [2]]⟩ : Heap) 1)))
    ∧ FreshUnchanged (⟨[[1], [2]]⟩ : Heap)
        (DuneStuffVector.add (⟨[[1], [2]]⟩ : Heap) ⟨0⟩ ⟨1⟩) ⟨0⟩ ⟨1⟩
    ∧ FreshUnchanged (⟨[[1], [2]]⟩ : Heap)
        (DuneStuffVector.sub (⟨[[1], [2]]⟩ : Heap) ⟨0⟩ ⟨1⟩) ⟨0⟩ ⟨1⟩
    ∧ FreshUnchanged (⟨[[1], [2]]⟩ : Heap)
        (DuneStuffVector.mul (⟨[[1], [2]]⟩ : Heap) ⟨0⟩ 3) ⟨0⟩ ⟨1⟩
    ∧ FreshUnchanged (⟨[[1], [2]]⟩ : Heap)
        (DuneStuffVector.neg (⟨[[1], [2]]⟩ : Heap) ⟨0⟩) ⟨0⟩ ⟨1⟩
    ∧ FreshUnchanged (⟨[[1], [2]]⟩ : Heap)
        (DuneStuffVector.copy (⟨[[1], [2]]⟩ : Heap) ⟨0⟩ true) ⟨0⟩ ⟨1⟩
    ∧ FreshUnchanged (⟨[[1], [2]]⟩ : Heap)
        (DuneStuffVector.copy (⟨[[1], [2]]⟩ : Heap) ⟨0⟩ false) ⟨0⟩ ⟨1⟩ :=
  mutating_vs_fresh ⟨[[1], [2]]⟩ ⟨0⟩ ⟨1⟩ 3 (by decide) (by decide) (by decide)

/-- C4: for either value of `deep`, `copy` yields a new wrapper over freshly
allocated independent storage holding identical values; scaling the copy in
place leaves the original's buffer unchanged, and scaling the original
leaves the copy's buffer unchanged. -/
theorem copy_independent (h : Heap) (v : DuneStuffVector) (deep : Bool) (alpha : Double)
    (hv : v.impl < h.bufs.length) :
    (DuneStuffVector.copy h v deep).2.impl ≠ v.impl
    ∧ Heap.get (DuneStuffVector.copy h v deep).1 (DuneStuffVector.copy h v deep).2.impl
        = Heap.get h v.impl
    ∧ Heap.get (DuneStuffVector.scal (DuneStuffVector.copy h v deep).1
          (DuneStuffVector.copy h v deep).2 alpha).1 v.impl
        = Heap.get h v.impl
    ∧ Heap.get (DuneStuffVector.scal (DuneStuffVector.copy h v deep).1 v alpha).1
          (DuneStuffVector.copy h v deep).2.impl
        = Heap.get h v.impl := by
  refine ⟨Nat.ne_of_gt hv, Heap.get_alloc_fresh h (Heap.get h v.impl), ?_, ?_⟩
  · exact (Heap.get_set_other (DuneStuffVector.copy h v deep).1
        (DuneStuffVector.copy h v deep).2.impl v.impl _ (Nat.ne_of_lt hv)).trans
      (Heap.get_alloc_old h (Heap.get h v.impl) v.impl hv)
  · exact (Heap.get_set_other (DuneStuffVector.copy h v deep).1
        v.impl (DuneStuffVector.copy h v deep).2.impl _ (Nat.ne_of_gt hv)).trans
      (Heap.get_alloc_fresh h (Heap.get h v.impl))

/-- C4 witness: the statement for the one-vector heap `[[1, 2]]`, copied with
`deep=False` and scaled by 3. -/
theorem copy_independent_witness :
    (DuneStuffVector.copy (⟨[[1, 2]]⟩ : Heap) ⟨0⟩ false).2.impl ≠ 0
    ∧ Heap.get (DuneStuffVector.copy (⟨[[1, 2]]⟩ : Heap) ⟨0⟩ false).1
        (DuneStuffVector.copy (⟨[[1, 2]]⟩ : Heap) ⟨0⟩ false).2.impl
        = Heap.get (⟨[[1, 2]]⟩ : Heap) 0
    ∧ Heap.get (DuneStuffVector.scal (DuneStuffVector.copy (⟨[[1, 2]]⟩ : Heap) ⟨0⟩ false).1
          (DuneStuffVector.copy (⟨[[1, 2]]⟩ : Heap) ⟨0⟩ false).2 3).1 0
        = Heap.get (⟨[[1, 2]]⟩ : Heap) 0
    ∧ Heap.get (DuneStuffVector.scal (DuneStuffVector.copy (⟨[[1, 2]]⟩ : Heap) ⟨0⟩ false).1
          ⟨0⟩ 3).1 (DuneStuffVector.copy (⟨[[1, 2]]⟩ : Heap) ⟨0⟩ false).2.impl
        = Heap.get (⟨[[1, 2]]⟩ : Heap) 0 :=
  copy_independent ⟨[[1, 2]]⟩ ⟨0⟩ false 3 (by decide)

/-! ## min/max over index lists -/

theorem foldl_min_le (xs : List Int) (a : Int) : xs.foldl min a ≤ a := by
  induction xs generalizing a with
  | nil => exact le_refl a
  | cons x t ih => exact le_trans (ih (min a x)) (min_le_left a x)

theorem foldl_min_le_mem : ∀ (xs : List Int) (a i : Int), i ∈ xs → xs.foldl min a ≤ i
  | [], _, _, hi => nomatch hi
  | x :: t, a, i, hi => by
    cases hi with
    | head => exact le_trans (foldl_min_le t (min a x)) (min_le_right a x)
    | tail _ hmem => exact foldl_min_le_mem t (min a x) i hmem

theorem npMin_le_mem (xs : List Int) (i : Int) (hi : i ∈ xs) : npMin xs ≤ i := by
  cases xs with
  | nil => cases hi
  | cons x t =>
    cases hi with
    | head => exact foldl_min_le t i
    | tail _ hmem => exact foldl_min_le_mem t x i hmem

theorem le_foldl_max (xs : List Int) (a : Int) : a ≤ xs.foldl max a := by
  induction xs generalizing a with
  | nil => exact le_refl a
  | cons x t ih => exact le_trans (le_max_left a x) (ih (max a x))

theorem le_foldl_max_mem : ∀ (xs : List Int) (a i : Int), i ∈ xs → i ≤ xs.foldl max a
  | [], _, _, hi => nomatch hi
  | x :: t, a, i, hi => by
    cases hi with
    | head => exact le_trans (le_max_right a x) (le_foldl_max t (max a x))
    | tail _ hmem => exact le_foldl_max_mem t (max a x) i hmem

theorem le_npMax_mem (xs : List Int) (i : Int) (hi : i ∈ xs) : i ≤ npMax xs := by
  cases xs with
  | nil => cases hi
  | cons x t =>
    cases hi with
    | head => exact le_foldl_max t i
    | tail _ hmem => exact le_foldl_max_mem t x i hmem

/-- C6: a nonempty index list containing an index below 0 or at or above the
vector's dimension makes `dofs` abort with `IndexOutOfRange`, returning no
result. -/
theorem dofs_out_of_range (h : Heap) (v : DuneStuffVector) (idx : List Int) (i : Int)
    (hi : i ∈ idx) (hout : i < 0 ∨ (DuneStuffVector.dim h v : Int) ≤ i) :
    DuneStuffVector.dofs h v idx = Except.error DofsError.indexOutOfRange := by
  have hne : ¬(idx.length = 0) := by
    cases idx with
    | nil => cases hi
    | cons x t => simp
  have hcond : ¬(0 ≤ npMin idx ∧ npMax idx < (DuneStuffVector.dim h v : Int)) := by
    rintro ⟨hmin, hmax⟩
    cases hout with
    | inl hneg => exact absurd (le_trans hmin (npMin_le_mem idx i hi)) (not_le.mpr hneg)
    | inr hge => exact absurd hmax (not_lt.mpr (le_trans hge (le_npMax_mem idx i hi)))
  unfold DuneStuffVector.dofs
  rw [if_neg hne, if_neg hcond]

/-- C6 witness: over the heap `[[1, 2]]` the vector has dimension 2, and
`dofs([0, 5])` aborts with `IndexOutOfRange`. -/
theorem dofs_out_of_range_witness :
    (5 : Int) ∈ [(0 : Int), 5]
    ∧ DuneStuffVector.dofs (⟨[[1, 2]]⟩ : Heap) ⟨0⟩ [0, 5]
        = Except.error DofsError.indexOutOfRange :=
  ⟨by decide, dofs_out_of_range ⟨[[1, 2]]⟩ ⟨0⟩ [0, 5] 5 (by decide) (by decide)⟩

theorem Heap.get_alloc_at_length (h : Heap) (b : Buffer) :
    Heap.get (Heap.alloc h b).1 h.bufs.length = b := Heap.get_alloc_fresh h b

theorem setstate_heap (h : Heap) (s : Buffer) :
    (DuneStuffVector.setstate h s).1
      = Heap.set (Heap.alloc h (List.replicate s.length 0)).1 h.bufs.length s := by
  show NpArray.sliceWrite (Heap.alloc h (List.replicate s.length 0)).1 ⟨h.bufs.length⟩ s = _
  unfold NpArray.sliceWrite
  apply if_pos
  rw [Heap.get_alloc_at_length, List.length_replicate]

/-- C7: serializing a vector to its flat snapshot and deserializing that state
yields a wrapper over freshly allocated storage with identical values whose
dimension is the snapshot's length — value equality round-trips, object
identity does not. -/
theorem pickle_roundtrip (h : Heap) (v : DuneStuffVector) (hv : v.impl < h.bufs.length) :
    Heap.get (DuneStuffVector.setstate h (DuneStuffVector.getstate h v)).1
        (DuneStuffVector.setstate h (DuneStuffVector.getstate h v)).2.impl
      = Heap.get h v.impl
    ∧ DuneStuffVector.dim (DuneStuffVector.setstate h (DuneStuffVector.getstate h v)).1
        (DuneStuffVector.setstate h (DuneStuffVector.getstate h v)).2
      = (DuneStuffVector.getstate h v).length
    ∧ (DuneStuffVector.setstate h (DuneStuffVector.getstate h v)).2 ≠ v := by
  have himpl : (DuneStuffVector.setstate h (DuneStuffVector.getstate h v)).2.impl
      = h.bufs.length := rfl
  have hlt : h.bufs.length
      < (Heap.alloc h (List.replicate (DuneStuffVector.getstate h v).length 0)).1.bufs.length := by
    rw [Heap.length_alloc]
    exact Nat.lt_succ_self _
  have hval : Heap.get (DuneStuffVector.setstate h (DuneStuffVector.getstate h v)).1
      (DuneStuffVector.setstate h (DuneStuffVector.getstate h v)).2.impl
      = DuneStuffVector.getstate h v := by
    rw [himpl, setstate_heap, Heap.get_set_same _ _ _ hlt]
  refine ⟨hval, ?_, ?_⟩
  · show (Heap.get (DuneStuffVector.setstate h (DuneStuffVector.getstate h v)).1
        (DuneStuffVector.setstate h (DuneStuffVector.getstate h v)).2.impl).length
      = (DuneStuffVector.getstate h v).length
    rw [hval]
  · intro heq
    have himpl2 : h.bufs.length = v.impl := congrArg DuneStuffVector.impl heq
    exact absurd (himpl2 ▸ hv) (Nat.lt_irrefl v.impl)

/-- C7 witness: the statement for the vector with values `[1, -5/2, 3]`
(the spec's `[1.0, -2.5, 3.0]`), whose snapshot has length 3. -/
theorem pickle_roundtrip_witness :
    Heap.get (DuneStuffVector.setstate (⟨[[1, -5/2, 3]]⟩ : Heap)
        (DuneStuffVector.getstate (⟨[[1, -5/2, 3]]⟩ : Heap) ⟨0⟩)).1
      (DuneStuffVector.setstate (⟨[[1, -5/2, 3]]⟩ : Heap)
        (DuneStuffVector.getstate (⟨[[1, -5/2, 3]]⟩ : Heap) ⟨0⟩)).2.impl
      = Heap.get (⟨[[1, -5/2, 3]]⟩ : Heap) 0
    ∧ DuneStuffVector.dim (DuneStuffVector.setstate (⟨[[1, -5/2, 3]]⟩ : Heap)
        (DuneStuffVector.getstate (⟨[[1, -5/2, 3]]⟩ : Heap) ⟨0⟩)).1
      (DuneStuffVector.setstate (⟨[[1, -5/2, 3]]⟩ : Heap)
        (DuneStuffVector.getstate (⟨[[1, -5/2, 3]]⟩ : Heap) ⟨0⟩)).2
      = (DuneStuffVector.getstate (⟨[[1, -5/2, 3]]⟩ : Heap) ⟨0⟩).length
    ∧ (DuneStuffVector.setstate (⟨[[1, -5/2, 3]]⟩ : Heap)
        (DuneStuffVector.getstate (⟨[[1, -5/2, 3]]⟩ : Heap) ⟨0⟩)).2 ≠ ⟨0⟩ :=
  pickle_roundtrip ⟨[[1, -5/2, 3]]⟩ ⟨0⟩ (by decide)

/-! ## Solver parameter caching -/

theorem set_rhs_last (s : SolverState) (mu : Mu) :
    (Solver.set_rhs_operator_params s mu).1.last_mu = some mu := by
  unfold Solver.set_rhs_operator_params
  by_cases hc : some mu ≠ s.last_mu
  · rw [if_pos hc]
  · rw [if_neg hc]
    exact (not_ne_iff.mp hc).symm

theorem set_rhs_repeat (s : SolverState) (mu : Mu) (hs : s.last_mu = some mu) :
    Solver.set_rhs_operator_params s mu = (s, false) := by
  unfold Solver.set_rhs_operator_params
  rw [hs]
  simp

theorem runParams_foldl_last (ms : List Mu) (s : SolverState)
    (hs : s.last_mu = s.calls.getLast?) :
    (ms.foldl (fun t mu => (Solver.set_rhs_operator_params t mu).1) s).last_mu
      = (ms.foldl (fun t mu => (Solver.set_rhs_operator_params t mu).1) s).calls.getLast? := by
  induction ms generalizing s with
  | nil => exact hs
  | cons m rest ih =>
    show (rest.foldl (fun t mu => (Solver.set_rhs_operator_params t mu).1)
        (Solver.set_rhs_operator_params s m).1).last_mu = _
    apply ih
    by_cases hc : some m ≠ s.last_mu
    · simp only [Solver.set_rhs_operator_params, if_pos hc]
      simp [List.getLast?_concat]
    · simp only [Solver.set_rhs_operator_params, if_neg hc]
      exact hs

/-- After a fresh solver processes any call sequence, its cached `last_mu` is
exactly the most recently invoked native parameter tuple. -/
theorem runParams_last (ms : List Mu) :
    (Solver.runParams ms).last_mu = (Solver.runParams ms).calls.getLast? :=
  runParams_foldl_last ms Solver.init rfl

/-- C10: starting from a fresh solver, a `set_rhs_operator_params` call
invokes the native `set_rhs_operator_parameters` exactly when its argument
tuple differs from the tuple of the most recent native invocation — the very
first call always invokes it — and a repeated call with identical parameters
returns the state unchanged with no native call. -/
theorem rhs_param_caching (ms : List Mu) (mu : Mu) :
    ((Solver.set_rhs_operator_params (Solver.runParams ms) mu).2 = true
      ↔ some mu ≠ (Solver.runParams ms).calls.getLast?)
    ∧ (Solver.set_rhs_operator_params Solver.init mu).2 = true
    ∧ Solver.set_rhs_operator_params
        (Solver.set_rhs_operator_params (Solver.runParams ms) mu).1 mu
      = ((Solver.set_rhs_operator_params (Solver.runParams ms) mu).1, false) := by
  refine ⟨?_, ?_, ?_⟩
  · rw [← runParams_last ms]
    by_cases hc : some mu ≠ (Solver.runParams ms).last_mu
    · simp only [Solver.set_rhs_operator_params, if_pos hc]
      simpa using hc
    · simp only [Solver.set_rhs_operator_params, if_neg hc]
      simpa using hc
  · simp [Solver.set_rhs_operator_params, Solver.init]
  · exact set_rhs_repeat _ mu (set_rhs_last _ mu)
